import Mathlib

/-!
Verification of the GRAVE-Controller firmware (`src/code/grave_controller.cpp`)
against its natural-language specification.

The firmware is shallowly embedded: C++ `int` becomes `Int`, the fixed-size
`Period periods[MAX_PERIODS]` array becomes a function `Fin 3 → Period`,
hardware, playback and persistence side effects become explicit effect lists,
and each HTTP handler becomes a pure function from the request data and the
current configuration to the new configuration, its effects and the HTTP
response.  Serial diagnostic prints are not modelled.
-/

namespace Grave

/-- `MAX_PERIODS` from the source (`#define MAX_PERIODS 3`). -/
def MAX_PERIODS : Nat := 3

/-- Arduino's `constrain(amt, low, high)` macro:
`((amt)<(low)?(low):((amt)>(high)?(high):(amt)))`. -/
def constrain (x lo hi : Int) : Int :=
  if x < lo then lo else if x > hi then hi else x

/-- `struct Period`: one daily alarm window, four C++ `int` fields.  Also used
for the four raw `toInt()` results of one slot of the `/set` form, which has
the same shape and field names. -/
structure Period where
  start_h : Int := 0
  start_m : Int := 0
  end_h : Int := 0
  end_m : Int := 0
  deriving DecidableEq, Repr

/-- `struct AlarmData`: the whole persisted configuration.  The C array
`Period periods[MAX_PERIODS]` is a total function on `Fin 3`. -/
structure AlarmData where
  num_periods : Int := 0
  periods : Fin 3 → Period := fun _ => {}
  volume : Int := 15
  signature : Int := 0xAABBCCDD
  deriving DecidableEq

/-- The expected EEPROM signature `0xAABBCCDD`. -/
def SIGNATURE : Int := 0xAABBCCDD

/-- The default configuration produced by `AlarmData default_config;`
(all member initializers of the struct). -/
def defaultAlarmData : AlarmData := {}

/-- `p.start_h * 60 + p.start_m` from `checkAlarmState`. -/
def startMinutes (p : Period) : Int := p.start_h * 60 + p.start_m

/-- `p.end_h * 60 + p.end_m` from `checkAlarmState`. -/
def endMinutes (p : Period) : Int := p.end_h * 60 + p.end_m

/-- The per-window membership test in the body of the loop of
`checkAlarmState` (lines 148-160): same-day branch when
`start_in_minutes < end_in_minutes`, overnight branch when
`start_in_minutes > end_in_minutes`, and no branch at all when equal. -/
def periodActive (p : Period) (now : Int) : Bool :=
  let s := startMinutes p
  let e := endMinutes p
  if s < e then
    decide (now ≥ s) && decide (now < e)
  else if s > e then
    decide (now ≥ s) || decide (now < e)
  else
    false

/-- The `should_be_active` accumulation of `checkAlarmState` over an explicit
list of windows: the loop sets the flag and breaks at the first window whose
membership test succeeds, which is exactly `List.any`. -/
def shouldBeActiveL (ws : List Period) (now : Int) : Bool :=
  ws.any (fun p => periodActive p now)

/-- The windows the loop `for (int i = 0; i < alarmConfig.num_periods; i++)`
actually visits: the array entries at indices `i` with `i < num_periods`,
in stored order. -/
def visitedWindows (cfg : AlarmData) : List Period :=
  ((List.finRange 3).filter
      (fun i : Fin 3 => decide ((i : Int) < cfg.num_periods))).map
    cfg.periods

/-- The `should_be_active` boolean computed by `checkAlarmState`
(lines 137-161) from the configuration and `now_in_minutes`. -/
def shouldBeActive (cfg : AlarmData) (now : Int) : Bool :=
  shouldBeActiveL (visitedWindows cfg) now

/-- `RTCtime.Hours * 60 + RTCtime.Minutes`. -/
def nowInMinutes (hours minutes : Int) : Int := hours * 60 + minutes

/-- Hardware and playback side effects fired by `checkAlarmState`.
`digitalWrite true` is the HIGH level (relay OFF), `digitalWrite false` is
LOW (relay ON). -/
inductive Effect where
  | digitalWrite (level : Bool)
  | setLEDColor (color : Nat)
  | playTrackInLoop (track : Nat)
  | stop
  deriving DecidableEq, Repr

/-- `GRAVE_MP3_TRACK_NUM` from the source. -/
def GRAVE_MP3_TRACK_NUM : Nat := 1

/-- One invocation of `checkAlarmState` (lines 137-193): computes
`should_be_active`, compares it with the remembered `is_alarm_active`, and
returns the new remembered state together with the fired effects, following
the source's four-branch conditional. -/
def checkAlarmStep (cfg : AlarmData) (now : Int) (active : Bool) :
    Bool × List Effect :=
  let should := shouldBeActive cfg now
  if should && !active then
    (true, [.digitalWrite false, .setLEDColor 0x00FF00,
            .playTrackInLoop GRAVE_MP3_TRACK_NUM])
  else if !should && active then
    (false, [.digitalWrite true, .setLEDColor 0xFF0000, .stop])
  else if should then
    (active, [.setLEDColor 0x00FF00])
  else
    (active, [.setLEDColor 0xFF0000])

/-- The amplifier and playback effects in a list of effects (everything
except status-LED updates). -/
def ampOrPlayback : Effect → Bool
  | .setLEDColor _ => false
  | _ => true

/-! ### Persistence and HTTP handlers -/

/-- Persistence, playback-volume and clock side effects of the EEPROM
functions and the web handlers. -/
inductive WebEffect where
  | saveConfig (cfg : AlarmData)
  | mp3SetVolume (v : Int)
  | rtcSetTime (h m s : Int)
  | rtcSetDate (d mon y : Int)
  deriving DecidableEq

/-- The parts of an HTTP response the handlers produce through
`server.send` and `server.sendHeader("Location", ...)`. -/
structure HttpResponse where
  code : Nat
  contentType : String
  body : String
  location : Option String := none
  deriving DecidableEq, Repr

/-- The `302` redirect to `/` every successful POST handler sends. -/
def redirectRoot : HttpResponse :=
  { code := 302, contentType := "text/plain", body := "", location := some "/" }

/-- The `405` response of the `else` branch of each POST handler. -/
def methodNotAllowed : HttpResponse :=
  { code := 405, contentType := "text/plain", body := "Method not allowed" }

/-- `handleNotFound` (lines 419-421). -/
def handleNotFound : HttpResponse :=
  { code := 404, contentType := "text/plain", body := "404: Not found" }

/-- The HTTP methods distinguished by the `WebServer` routing constants used
in the source (`HTTP_GET`, `HTTP_POST`); `OTHER` stands for any further
method. -/
inductive HttpMethod where
  | GET
  | POST
  | OTHER
  deriving DecidableEq, Repr

/-- The clamping of one form slot in `handleSet` (lines 333-336). -/
def clampSlot (p : Period) : Period :=
  { start_h := constrain p.start_h 0 23
    start_m := constrain p.start_m 0 59
    end_h := constrain p.end_h 0 23
    end_m := constrain p.end_m 0 59 }

/-- The keep test of `handleSet` (line 339): at least one clamped field is
non-zero. -/
def slotKept (p : Period) : Bool :=
  decide (p.start_h ≠ 0) || decide (p.start_m ≠ 0) ||
    decide (p.end_h ≠ 0) || decide (p.end_m ≠ 0)

/-- `newConfig.periods[j] = p` on the array-as-function (a write at an index
`≥ 3` never happens in the source loop and changes nothing here). -/
def writePeriod (ps : Fin 3 → Period) (j : Nat) (p : Period) : Fin 3 → Period :=
  fun k => if (k : Nat) = j then p else ps k

/-- The slot loop of `handleSet` (lines 320-346): reads each form slot in
order, clamps it, and if kept writes it at the running `periods_count` and
increments the count. -/
def handleSetLoop (form : Fin 3 → Period) :
    List (Fin 3) → (Fin 3 → Period) → Nat → (Fin 3 → Period) × Nat
  | [], ps, cnt => (ps, cnt)
  | i :: rest, ps, cnt =>
      let s := clampSlot (form i)
      if slotKept s then handleSetLoop form rest (writePeriod ps cnt s) (cnt + 1)
      else handleSetLoop form rest ps cnt

/-- `handleSet` (lines 313-359).  `form i` holds the four `toInt()` results
of slot `i`'s fields.  On POST: copies the current config, runs the slot
loop over the three slots, sets `num_periods` to the final count, installs
and saves the new config, redirects to `/`; otherwise responds 405. -/
def handleSet (cfg : AlarmData) (method : HttpMethod) (form : Fin 3 → Period) :
    AlarmData × List WebEffect × HttpResponse :=
  match method with
  | .POST =>
      let r := handleSetLoop form (List.finRange 3) cfg.periods 0
      let newConfig : AlarmData :=
        { cfg with periods := r.1, num_periods := (r.2 : Int) }
      (newConfig, [.saveConfig newConfig], redirectRoot)
  | _ => (cfg, [], methodNotAllowed)

/-- The clamped form slots `handleSet` keeps, in order: the specification's
description of the new window sequence. -/
def keptSlots (form : Fin 3 → Period) : List Period :=
  ((List.finRange 3).map (fun i => clampSlot (form i))).filter slotKept

/-- `handleSetVolume` (lines 362-380).  On POST: clamps `v` to `[0,30]`, and
only when the clamped value differs from the current volume stores it,
applies it to the player and saves; redirects to `/`; otherwise 405. -/
def handleSetVolume (cfg : AlarmData) (method : HttpMethod) (v : Int) :
    AlarmData × List WebEffect × HttpResponse :=
  match method with
  | .POST =>
      let new_volume := constrain v 0 30
      if cfg.volume ≠ new_volume then
        let cfg' := { cfg with volume := new_volume }
        (cfg', [.mp3SetVolume new_volume, .saveConfig cfg'], redirectRoot)
      else (cfg, [], redirectRoot)
  | _ => (cfg, [], methodNotAllowed)

/-- The six `toInt()` results of the `/settime` form. -/
structure TimeForm where
  h : Int := 0
  m : Int := 0
  s : Int := 0
  d : Int := 0
  mon : Int := 0
  y : Int := 0
  deriving DecidableEq

/-- `handleSetTime` (lines 383-417).  On POST: clamps each field to its
calendar range, writes time and date to the RTC, redirects to `/`;
otherwise 405.  The configuration is untouched. -/
def handleSetTime (cfg : AlarmData) (method : HttpMethod) (t : TimeForm) :
    AlarmData × List WebEffect × HttpResponse :=
  match method with
  | .POST =>
      ( cfg,
        [.rtcSetTime (constrain t.h 0 23) (constrain t.m 0 59)
            (constrain t.s 0 59),
          .rtcSetDate (constrain t.d 1 31) (constrain t.mon 1 12)
            (constrain t.y 2024 2100)],
        redirectRoot)
  | _ => (cfg, [], methodNotAllowed)

/-- `handleRoot` (lines 198-311): renders the status page.  The HTML body is
not modelled; only the status line and content type of `server.send(200,
"text/html", html)` are kept. -/
def handleRoot (cfg : AlarmData) : AlarmData × List WebEffect × HttpResponse :=
  (cfg, [], { code := 200, contentType := "text/html", body := "" })

/-- An incoming HTTP request: its method, path, and the parsed (`toInt()`)
arguments each handler would read. -/
structure Request where
  method : HttpMethod
  path : String
  setForm : Fin 3 → Period := fun _ => {}
  volumeArg : Int := 0
  timeForm : TimeForm := {}

/-- The route table registered in `setup` (lines 490-494), modelled as path
dispatch with each handler performing the method check present in its own
source; unknown paths go to `handleNotFound`. -/
def dispatch (cfg : AlarmData) (req : Request) :
    AlarmData × List WebEffect × HttpResponse :=
  if req.path = "/" then handleRoot cfg
  else if req.path = "/set" then handleSet cfg req.method req.setForm
  else if req.path = "/settime" then handleSetTime cfg req.method req.timeForm
  else if req.path = "/setvolume" then
    handleSetVolume cfg req.method req.volumeArg
  else (cfg, [], handleNotFound)

/-- `loadAlarmConfig` (lines 92-107): reads the stored struct; on signature
mismatch substitutes the defaults and saves them immediately; finally clamps
the volume to `[0,30]`. -/
def loadAlarmConfig (stored : AlarmData) : AlarmData × List WebEffect :=
  let r :=
    if stored.signature ≠ SIGNATURE then
      (defaultAlarmData, [WebEffect.saveConfig defaultAlarmData])
    else (stored, ([] : List WebEffect))
  ({ r.1 with volume := constrain r.1.volume 0 30 }, r.2)

/-- All four hour/minute fields of a window within their bounds. -/
def PeriodInBounds (p : Period) : Prop :=
  0 ≤ p.start_h ∧ p.start_h ≤ 23 ∧ 0 ≤ p.start_m ∧ p.start_m ≤ 59 ∧
    0 ≤ p.end_h ∧ p.end_h ≤ 23 ∧ 0 ≤ p.end_m ∧ p.end_m ≤ 59

instance (p : Period) : Decidable (PeriodInBounds p) := by
  unfold PeriodInBounds; infer_instance

/-- The Schedule invariant of the specification: the window count stays
within `[0, MAX_PERIODS]` and every stored window's fields are within their
bounds. -/
def ScheduleInv (cfg : AlarmData) : Prop :=
  0 ≤ cfg.num_periods ∧ cfg.num_periods ≤ 3 ∧
    ∀ i : Fin 3, PeriodInBounds (cfg.periods i)

instance (cfg : AlarmData) : Decidable (ScheduleInv cfg) := by
  unfold ScheduleInv; infer_instance

/-- The configurations `alarmConfig` can reach through the firmware's own
operations: boot into the defaults, any `/set` or `/setvolume` edit, and a
reboot that reloads a configuration the firmware itself had saved. -/
inductive Reachable : AlarmData → Prop where
  | boot : Reachable defaultAlarmData
  | set (cfg : AlarmData) (form : Fin 3 → Period) :
      Reachable cfg → Reachable (handleSet cfg .POST form).1
  | setVolume (cfg : AlarmData) (v : Int) :
      Reachable cfg → Reachable (handleSetVolume cfg .POST v).1
  | reload (cfg : AlarmData) :
      Reachable cfg → Reachable (loadAlarmConfig cfg).1

/-- A configuration with one same-day window `08:00-17:00` in slot 0 and
empty remaining slots; used as a concrete witness input. -/
def sampleCfg : AlarmData :=
  { num_periods := 1
    periods := fun i => if i = 0 then ⟨8, 0, 17, 0⟩ else {} }

/-- `sampleCfg` with different stale data in slot 2 (beyond `num_periods`);
used as a concrete witness input. -/
def sampleCfgStale : AlarmData :=
  { num_periods := 1
    periods := fun i =>
      if i = 0 then ⟨8, 0, 17, 0⟩ else if i = 2 then ⟨23, 59, 1, 30⟩ else {} }

/-! ### Helper lemmas -/

/-- `constrain` lands in `[lo, hi]` whenever `lo ≤ hi`. -/
theorem constrain_mem (x lo hi : Int) (h : lo ≤ hi) :
    lo ≤ constrain x lo hi ∧ constrain x lo hi ≤ hi := by
  unfold constrain; split_ifs <;> omega

/-- A clamped slot is always within the window bounds. -/
theorem clampSlot_inBounds (p : Period) : PeriodInBounds (clampSlot p) := by
  have h1 := constrain_mem p.start_h 0 23 (by omega)
  have h2 := constrain_mem p.start_m 0 59 (by omega)
  have h3 := constrain_mem p.end_h 0 23 (by omega)
  have h4 := constrain_mem p.end_m 0 59 (by omega)
  exact ⟨h1.1, h1.2, h2.1, h2.2, h3.1, h3.2, h4.1, h4.2⟩

/-- `List.finRange 3` explicitly. -/
theorem finRange_three : List.finRange 3 = [0, 1, 2] := by decide

/-! ### C1: per-window membership test -/

/-- **C1.** For every window and every current time (in minutes since
midnight), the per-window membership test of `checkAlarmState` holds exactly
when: if `start < end` then `start ≤ now < end`, and if `start > end` then
`now ≥ start` or `now < end`. -/
theorem periodActive_iff (p : Period) (now : Int) :
    periodActive p now = true ↔
      ((startMinutes p < endMinutes p ∧
          startMinutes p ≤ now ∧ now < endMinutes p) ∨
        (startMinutes p > endMinutes p ∧
          (now ≥ startMinutes p ∨ now < endMinutes p))) := by
  simp only [periodActive]
  split_ifs with h1 h2 <;> simp <;> omega

/-! ### C2: degenerate windows contribute no activation -/

/-- Helper for C2: a window with equal start and end never passes the
membership test. -/
theorem periodActive_of_eq (p : Period) (now : Int)
    (h : startMinutes p = endMinutes p) : periodActive p now = false := by
  unfold periodActive
  simp [h]

/-- **C2.** A window whose start equals its end in minutes-since-midnight
(the all-zero window included) contributes no activation: inserting it
anywhere among the evaluated windows leaves the evaluator's result unchanged,
so it never makes the evaluator report active. -/
theorem degenerate_window_no_activation (l1 l2 : List Period) (p : Period)
    (now : Int) (h : startMinutes p = endMinutes p) :
    shouldBeActiveL (l1 ++ p :: l2) now = shouldBeActiveL (l1 ++ l2) now := by
  unfold shouldBeActiveL
  simp [List.any_append, periodActive_of_eq p now h]

/-- Witness for C2 at a concrete input: the all-zero window `00:00-00:00`
inserted between a same-day window and an overnight window changes nothing
(and in particular the evaluator stays inactive at 07:30 here). -/
theorem degenerate_window_no_activation_witness :
    shouldBeActiveL
        ([⟨8, 0, 17, 0⟩] ++ ({} : Period) :: [⟨22, 0, 6, 0⟩]) (7 * 60 + 30) =
      shouldBeActiveL ([⟨8, 0, 17, 0⟩] ++ [⟨22, 0, 6, 0⟩]) (7 * 60 + 30) :=
  degenerate_window_no_activation [⟨8, 0, 17, 0⟩] [⟨22, 0, 6, 0⟩] {}
    (7 * 60 + 30) (by decide)

/-! ### C3: edge-triggered side effects -/

/-- **C3.** The evaluator is edge-triggered.  The remembered state after a
call always equals the computed boolean, so a second call with the same
inputs fires no amplifier or playback effects (only the LED hold); starting
from inactive, the full start sequence (amplifier on, active color, looped
playback) fires exactly once, and only when the boolean is true; starting
from active, the stop sequence fires exactly once, and only when the boolean
is false.  When the boolean matches the remembered state, the only effect is
holding the LED color. -/
theorem checkAlarmState_edge_triggered (cfg : AlarmData) (now : Int) :
    (∀ a : Bool, (checkAlarmStep cfg now a).1 = shouldBeActive cfg now) ∧
      (∀ a : Bool,
        ((checkAlarmStep cfg now (checkAlarmStep cfg now a).1).2).filter
            ampOrPlayback = []) ∧
      (checkAlarmStep cfg now false).2 =
        (if shouldBeActive cfg now then
          [.digitalWrite false, .setLEDColor 0x00FF00,
            .playTrackInLoop GRAVE_MP3_TRACK_NUM]
        else [.setLEDColor 0xFF0000]) ∧
      (checkAlarmStep cfg now true).2 =
        (if shouldBeActive cfg now then [.setLEDColor 0x00FF00]
        else [.digitalWrite true, .setLEDColor 0xFF0000, .stop]) := by
  cases h : shouldBeActive cfg now <;>
    refine ⟨fun a => ?_, fun a => ?_, ?_, ?_⟩ <;>
    first
      | (cases a <;> simp [checkAlarmStep, h, ampOrPlayback])
      | simp [checkAlarmStep, h, ampOrPlayback]

/-! ### C4: /set processing -/

/-- **C4.** On every POST `/set` request: every slot's four fields are
clamped to hours `[0,23]` / minutes `[0,59]` (so every kept window is in
bounds); a slot is kept exactly when one of its clamped fields is non-zero;
the kept slots, compacted to the front in order, become the entire effective
window sequence and `num_periods` becomes their number; the new
configuration is persisted and the response is the `302` redirect to `/`. -/
theorem handleSet_post_spec (cfg : AlarmData) (form : Fin 3 → Period) :
    visitedWindows (handleSet cfg .POST form).1 = keptSlots form ∧
      (handleSet cfg .POST form).1.num_periods =
        ((keptSlots form).length : Int) ∧
      (∀ p ∈ keptSlots form, PeriodInBounds p) ∧
      (handleSet cfg .POST form).2.1 =
        [.saveConfig (handleSet cfg .POST form).1] ∧
      (handleSet cfg .POST form).2.2 = redirectRoot ∧
      redirectRoot.code = 302 ∧ redirectRoot.location = some "/" := by
  refine ⟨?_, ?_, ?_, rfl, rfl, rfl, rfl⟩
  · cases h0 : slotKept (clampSlot (form 0)) <;>
      cases h1 : slotKept (clampSlot (form 1)) <;>
      cases h2 : slotKept (clampSlot (form 2)) <;>
      simp [handleSet, handleSetLoop, keptSlots, visitedWindows,
        finRange_three, writePeriod, h0, h1, h2]
  · cases h0 : slotKept (clampSlot (form 0)) <;>
      cases h1 : slotKept (clampSlot (form 1)) <;>
      cases h2 : slotKept (clampSlot (form 2)) <;>
      simp [handleSet, handleSetLoop, keptSlots, finRange_three, h0, h1, h2]
  · intro p hp
    unfold keptSlots at hp
    obtain ⟨hp', -⟩ := List.mem_filter.mp hp
    obtain ⟨i, -, rfl⟩ := List.mem_map.mp hp'
    exact clampSlot_inBounds (form i)

/-! ### C9: /set leaves volume and signature unchanged -/

/-- **C9.** `handleSet` never touches the configuration's volume or
signature: for every starting configuration, method and form input, both
fields are unchanged. -/
theorem handleSet_preserves_volume_signature (cfg : AlarmData)
    (method : HttpMethod) (form : Fin 3 → Period) :
    (handleSet cfg method form).1.volume = cfg.volume ∧
      (handleSet cfg method form).1.signature = cfg.signature := by
  cases method <;> simp [handleSet]

/-! ### C5: startup load and signature recovery -/

/-- **C5.** At startup, a stored signature different from the fixed value
makes `loadAlarmConfig` substitute the defaults (zero windows, volume 15,
correct signature) and immediately write them back; a matching signature
loads the stored configuration verbatim except that the volume is clamped
to `[0,30]`. -/
theorem loadAlarmConfig_spec (stored : AlarmData) :
    (stored.signature ≠ SIGNATURE →
      (loadAlarmConfig stored).1 = defaultAlarmData ∧
        (loadAlarmConfig stored).2 = [.saveConfig defaultAlarmData]) ∧
      (stored.signature = SIGNATURE →
        (loadAlarmConfig stored).1 =
          { stored with volume := constrain stored.volume 0 30 } ∧
          (loadAlarmConfig stored).2 = []) ∧
      defaultAlarmData.num_periods = 0 ∧ defaultAlarmData.volume = 15 ∧
      defaultAlarmData.signature = SIGNATURE ∧
      0 ≤ constrain stored.volume 0 30 ∧ constrain stored.volume 0 30 ≤ 30 := by
  refine ⟨fun h => ?_, fun h => ?_, rfl, rfl, rfl,
    constrain_mem stored.volume 0 30 (by omega)⟩
  · unfold loadAlarmConfig
    rw [if_pos h]
    exact ⟨rfl, rfl⟩
  · unfold loadAlarmConfig
    rw [if_neg (fun hc => hc h)]
    exact ⟨rfl, rfl⟩

/-! ### C6: /setvolume clamps to [0,30] -/

/-- **C6.** On every POST `/setvolume` request the submitted value is
clamped to `[0,30]` before being stored and applied: the resulting volume is
exactly the clamped value (hence within bounds), every volume applied to the
player equals it, and in particular `v=999` yields 30 and `v=-5` yields 0. -/
theorem handleSetVolume_clamps (cfg : AlarmData) (v : Int) :
    (handleSetVolume cfg .POST v).1.volume = constrain v 0 30 ∧
      0 ≤ (handleSetVolume cfg .POST v).1.volume ∧
      (handleSetVolume cfg .POST v).1.volume ≤ 30 ∧
      (∀ w : Int,
        WebEffect.mp3SetVolume w ∈ (handleSetVolume cfg .POST v).2.1 →
          w = constrain v 0 30) ∧
      (handleSetVolume cfg .POST 999).1.volume = 30 ∧
      (handleSetVolume cfg .POST (-5)).1.volume = 0 := by
  have hb := constrain_mem v 0 30 (by omega)
  have h1 : (handleSetVolume cfg .POST v).1.volume = constrain v 0 30 := by
    simp only [handleSetVolume]
    split_ifs with h
    · rfl
    · exact not_not.mp h
  have c999 : constrain 999 0 30 = 30 := by decide
  have cneg : constrain (-5) 0 30 = 0 := by decide
  refine ⟨h1, h1 ▸ hb.1, h1 ▸ hb.2, ?_, ?_, ?_⟩
  · intro w hw
    simp only [handleSetVolume] at hw
    split_ifs at hw with h
    · simp at hw
      exact hw
    · simp at hw
  · simp only [handleSetVolume]
    split_ifs with h
    · exact c999
    · exact (not_not.mp h).trans c999
  · simp only [handleSetVolume]
    split_ifs with h
    · exact cneg
    · exact (not_not.mp h).trans cneg

/-! ### C8: method and path routing -/

/-- **C8.** Every non-POST request to one of the POST-only routes `/set`,
`/settime`, `/setvolume` receives a 405 response, and every request to a path
outside the route table receives the 404 plain-text response. -/
theorem dispatch_405_404 (cfg : AlarmData) (req : Request) :
    ((req.path = "/set" ∨ req.path = "/settime" ∨ req.path = "/setvolume") →
      req.method ≠ .POST → (dispatch cfg req).2.2 = methodNotAllowed) ∧
      (req.path ≠ "/" → req.path ≠ "/set" → req.path ≠ "/settime" →
        req.path ≠ "/setvolume" → (dispatch cfg req).2.2 = handleNotFound) ∧
      methodNotAllowed.code = 405 ∧ handleNotFound.code = 404 ∧
      handleNotFound.contentType = "text/plain" := by
  refine ⟨?_, ?_, rfl, rfl, rfl⟩
  · rintro (hp | hp | hp) hm <;>
      cases hmeth : req.method <;>
        first
          | exact absurd hmeth hm
          | simp [dispatch, hp, hmeth, handleSet, handleSetTime,
              handleSetVolume]
  · intro h1 h2 h3 h4
    simp [dispatch, h1, h2, h3, h4]

/-! ### C7: the Schedule invariant -/

/-- The slot loop only ever writes clamped slots, so it preserves window
bounds on the whole array. -/
theorem handleSetLoop_inBounds (form : Fin 3 → Period) (l : List (Fin 3))
    (ps : Fin 3 → Period) (cnt : Nat) (hps : ∀ i, PeriodInBounds (ps i)) :
    ∀ i, PeriodInBounds ((handleSetLoop form l ps cnt).1 i) := by
  induction l generalizing ps cnt with
  | nil => exact hps
  | cons a t ih =>
      simp only [handleSetLoop]
      split
      · refine ih _ _ fun j => ?_
        unfold writePeriod
        split
        · exact clampSlot_inBounds (form a)
        · exact hps j
      · exact ih _ _ hps

/-- The slot loop increments its count at most once per visited slot. -/
theorem handleSetLoop_count (form : Fin 3 → Period) (l : List (Fin 3))
    (ps : Fin 3 → Period) (cnt : Nat) :
    (handleSetLoop form l ps cnt).2 ≤ cnt + l.length := by
  induction l generalizing ps cnt with
  | nil => simp [handleSetLoop]
  | cons a t ih =>
      simp only [handleSetLoop, List.length_cons]
      split
      · exact le_trans (ih _ _) (by omega)
      · exact le_trans (ih _ _) (by omega)

/-- On a signature-matching load, the window count and the windows are taken
verbatim from storage (no re-validation beyond the volume field). -/
theorem loadAlarmConfig_verbatim (stored : AlarmData)
    (h : stored.signature = SIGNATURE) :
    (loadAlarmConfig stored).1.num_periods = stored.num_periods ∧
      (loadAlarmConfig stored).1.periods = stored.periods := by
  unfold loadAlarmConfig
  rw [if_neg (fun hc => hc h)]
  exact ⟨rfl, rfl⟩

/-- **C7.** Every configuration reachable through the firmware's own
operations satisfies the Schedule invariant: `num_periods` stays in
`[0, MAX_PERIODS]` and every stored window's hour fields are in `[0,23]` and
minute fields in `[0,59]`; the bounds are enforced at the point of edit,
while a signature-matching load takes count and windows verbatim,
re-validating nothing beyond the volume field. -/
theorem reachable_scheduleInv (cfg : AlarmData) (h : Reachable cfg) :
    ScheduleInv cfg ∧
      ∀ stored : AlarmData, stored.signature = SIGNATURE →
        (loadAlarmConfig stored).1.num_periods = stored.num_periods ∧
          (loadAlarmConfig stored).1.periods = stored.periods := by
  refine ⟨?_, loadAlarmConfig_verbatim⟩
  induction h with
  | boot => decide
  | set cfg form hr ih =>
      refine ⟨by simp only [handleSet]; exact Int.natCast_nonneg _, ?_, ?_⟩
      · have hc := handleSetLoop_count form (List.finRange 3) cfg.periods 0
        simp only [handleSet]
        simp only [List.length_finRange] at hc
        omega
      · exact handleSetLoop_inBounds form (List.finRange 3) cfg.periods 0
          ih.2.2
  | setVolume cfg v hr ih =>
      obtain ⟨h0, h1, h2⟩ := ih
      simp only [handleSetVolume]
      split_ifs
      · exact ⟨h0, h1, h2⟩
      · exact ⟨h0, h1, h2⟩
  | reload cfg hr ih =>
      unfold loadAlarmConfig
      split_ifs with hs
      · decide
      · exact ⟨ih.1, ih.2.1, ih.2.2⟩

/-- Witness for C7 at a concrete reachable state: the boot configuration. -/
theorem reachable_scheduleInv_witness :
    ScheduleInv defaultAlarmData ∧
      ∀ stored : AlarmData, stored.signature = SIGNATURE →
        (loadAlarmConfig stored).1.num_periods = stored.num_periods ∧
          (loadAlarmConfig stored).1.periods = stored.periods :=
  reachable_scheduleInv defaultAlarmData Reachable.boot

/-! ### C10: the evaluator ignores stale slots -/

/-- **C10.** The evaluator's boolean depends only on the current time, the
window count and the windows below that count: two configurations that agree
there get the same result, whatever sits in the slots at or beyond
`num_periods`. -/
theorem shouldBeActive_ignores_stale (cfg1 cfg2 : AlarmData) (now : Int)
    (hn : cfg1.num_periods = cfg2.num_periods)
    (hw : ∀ i : Fin 3, (i : Int) < cfg1.num_periods →
      cfg1.periods i = cfg2.periods i) :
    shouldBeActive cfg1 now = shouldBeActive cfg2 now := by
  have hf : (List.finRange 3).filter
        (fun i : Fin 3 => decide ((i : Int) < cfg1.num_periods)) =
      (List.finRange 3).filter
        (fun i : Fin 3 => decide ((i : Int) < cfg2.num_periods)) := by
    rw [hn]
  have hv : visitedWindows cfg1 = visitedWindows cfg2 := by
    unfold visitedWindows
    rw [hf]
    refine List.map_congr_left fun i hi => ?_
    rw [List.mem_filter] at hi
    exact hw i (by rw [hn]; simpa using hi.2)
  unfold shouldBeActive
  rw [hv]

/-- Witness for C10 at concrete inputs: a configuration with one window and
the same configuration with different stale data in slot 2 agree at 09:00
(both report active there). -/
theorem shouldBeActive_ignores_stale_witness :
    shouldBeActive sampleCfg (9 * 60) = shouldBeActive sampleCfgStale (9 * 60) :=
  shouldBeActive_ignores_stale sampleCfg sampleCfgStale (9 * 60) (by decide)
    (by decide)

end Grave
